import Mathlib

/-!
Shallow embedding of the finding-enrichment pipeline implemented in
`src/app/ai_generator/index.py`.  External collaborators (finding source,
graph source, generative-analysis capability, scheduler, object store,
notification bus) are modelled by a `World` of oracle outcomes, and every
outbound call the handler makes is recorded in an explicit `Call` trace.
Machine-level details that no observable property depends on (the exact
request payload strings sent to the analysis capability, the float
formatting of severities, JSON string escaping) are modelled by plain
string building; numbers that the source manipulates as Python floats
(severities) are modelled as rationals, and the source's dictionary
lookups are modelled by `Option` fields.
-/

namespace AiGen

/-- Python whitespace (the ASCII characters matched by `str.strip` and by
the regex class in `re.split`): space, tab, newline, carriage return,
vertical tab, form feed. -/
def isPyWS (c : Char) : Bool :=
  c = ' ' || c = '\t' || c = '\n' || c = '\x0d' || c = '\x0b' || c = '\x0c'

/-- Python `str.strip()`: drop leading and trailing whitespace. -/
def pyStrip (s : String) : String :=
  String.mk (((s.data.dropWhile isPyWS).reverse.dropWhile isPyWS).reverse)

/-- Completion of one separator match of the pattern used by
`re.split(r"\n\s*\n", ...)`, attempted just after the initial newline of
the separator has been consumed: the greedy `\s*` followed by a final
newline matches up to the last newline inside the leading whitespace run.
Returns the remainder of the input after that final newline, if the
pattern matches here. -/
def tailAfterLastNL : List Char → Option (List Char)
  | [] => none
  | c :: rest =>
    if isPyWS c then
      match tailAfterLastNL rest with
      | some rem => some rem
      | none => if c = '\n' then some rest else none
    else none

theorem tailAfterLastNL_lt (l rem : List Char) (h : tailAfterLastNL l = some rem) :
    rem.length < l.length := by
  induction l with
  | nil => simp [tailAfterLastNL] at h
  | cons c rest ih =>
    rw [tailAfterLastNL] at h
    by_cases hws : isPyWS c
    · rw [if_pos hws] at h
      cases hdeep : tailAfterLastNL rest with
      | some rem2 =>
        rw [hdeep] at h
        have h2 : rem2 = rem := by simpa using h
        subst h2
        simpa [List.length_cons] using Nat.lt_succ_of_lt (ih hdeep)
      | none =>
        rw [hdeep] at h
        by_cases hnl : c = '\n'
        · rw [if_pos hnl, Option.some_inj] at h
          simp [← h, List.length_cons]
        · simp [if_neg hnl] at h
    · rw [if_neg hws] at h; exact absurd h (by simp)

/-- Python `re.split(r"\n\s*\n", s)`: split on blank-line boundaries
(a newline, optional whitespace, newline — matched greedily, leftmost
first). `cur` accumulates the current piece in reverse.  Structural
recursion on a fuel that bounds the input length (each step strictly
shrinks the input, by `tailAfterLastNL_lt` in the separator case, so the
fuel-exhausted branch is unreachable from `reSplitBlank`). -/
def reSplitBlankAux : Nat → List Char → List Char → List String
  | _, [], cur => [String.mk cur.reverse]
  | 0, l, cur => [String.mk (cur.reverse ++ l)]
  | fuel + 1, c :: rest, cur =>
    if c = '\n' then
      match tailAfterLastNL rest with
      | some rem => String.mk cur.reverse :: reSplitBlankAux fuel rem []
      | none => reSplitBlankAux fuel rest ('\n' :: cur)
    else
      reSplitBlankAux fuel rest (c :: cur)

/-- Entry point of the blank-line splitter. -/
def reSplitBlank (l : List Char) (cur : List Char) : List String :=
  reSplitBlankAux l.length l cur

/-- `ai_insights.strip()` split on blank-line boundaries, as in
`generate_pdf` (`insights_lines`). -/
def insightsSections (ai_insights : String) : List String :=
  reSplitBlank (pyStrip ai_insights).data []

/-- A GuardDuty finding as the handler reads it: the dictionary keys the
source accesses (`Type`, `Id`, `Severity`, `AccountId`, `Region`);
missing keys are `none` (`dict.get` default) and the float severity is a
rational. The arbitrary nested remainder of the finding is irrelevant to
every observable the source computes from it. -/
structure Finding where
  ftype? : Option String := none
  fid? : Option String := none
  severity? : Option Rat := none
  faccountId? : Option String := none
  fregion? : Option String := none
  deriving DecidableEq

/-- `event["detail"]` fields the source reads. -/
structure EventDetail where
  schemaVersion : String
  accountId : String
  dregion : String
  dpartition : String
  did : String
  detectorId : String
  retryRuleName : Option String := none
  deriving DecidableEq

/-- The trigger event fields the source reads. -/
structure Event where
  version : String
  eid : String
  detailType : String
  esource : String
  account : String
  time : String
  region : String
  resources : List String
  detail : EventDetail
  deriving DecidableEq

/-- The Lambda context field the source reads. -/
structure Context where
  functionName : String
  deriving DecidableEq

/-- The environment variables the handler reads (`os.getenv` /
`os.environ.get`). -/
structure Env where
  aiReportsTopicArn : Option String := none
  aiReportsBucketName : Option String := none
  bedrockModelId : Option String := none
  deriving DecidableEq

/-- Python truthiness of an optional string (`if not s: ...`). -/
def truthy (o : Option String) : Bool :=
  match o with
  | none => false
  | some s => s ≠ ""

/-- One block of the analysis response `content` list; `text?` is the
optional `"text"` field. -/
structure ContentBlock where
  text? : Option String := none
  deriving DecidableEq

/-- Outcome of the `invoke_model` call: a parsed success body (with an
optional `content` list) or a client error with an error code
(`"ThrottlingException"` is the rate-limit signal). -/
inductive BedrockOutcome where
  | success (content? : Option (List ContentBlock))
  | clientError (code : String)
  deriving DecidableEq

/-- Every outbound call the pipeline can make, with the arguments that
identify it at the external interface. -/
inductive Call where
  | getFindings (detectorId findingId : String)
  | listGraphs
  | listMembers (graphArn : String)
  | invokeModel (modelId : String)
  | putRule (name : String) (fireAtSec : Nat)
  | putTargets (rule : String) (replay : Event)
  | putObject (bucket key : String)
  | presignedUrl (bucket key : String) (expiresIn : Nat)
  | snsPublish (topic defaultMsg emailMsg subject : String)
  | deleteRule (name : String)
  deriving DecidableEq

/-- Python exceptions the embedding distinguishes. -/
inductive PyError where
  | indexError
  | keyError (k : String)
  | clientError (code : String)
  | valueError (msg : String)
  | attributeError
  | exception (msg : String)
  deriving DecidableEq

/-- Rendering of an exception as `f"{e}"` interpolates it in the 500
body; the exact text is immaterial to every claim. -/
def pyErrStr : PyError → String
  | .indexError => "list index out of range"
  | .keyError k => "\x27" ++ k ++ "\x27"
  | .clientError code => "An error occurred (" ++ code ++ ")"
  | .valueError msg => msg
  | .attributeError => "\x27NoneType\x27 object has no attribute \x27strip\x27"
  | .exception msg => msg

/-- Oracle for the external collaborators and the nondeterministic draws
one run makes. -/
structure World where
  /-- `get_findings(...)["Findings"]` (empty list means the `[0]` lookup
  raises `IndexError`, which `get_guardduty_finding` re-raises). -/
  findings : List Finding := []
  /-- `list_graphs()["GraphList"]` arns. -/
  graphList : List String := []
  /-- `list_members` raises a `ClientError` (re-raised by
  `get_all_detective_entities`). -/
  listMembersErr : Bool := false
  /-- Parsed outcome of the analysis invocation. -/
  bedrock : BedrockOutcome := .success none
  /-- Seed of the `random.randint(1, 600)` draw. -/
  rng : Nat := 0
  /-- The `uuid.uuid4()` draw in `schedule_retry`. -/
  eventUuid : String := ""
  /-- `datetime.utcnow()` in `schedule_retry`, in epoch seconds; the cron
  fields of the one-shot rule encode `nowSec + delay`. -/
  nowSec : Nat := 0
  /-- `datetime.utcnow().isoformat()` in `generate_pdf`. -/
  pdfNow : String := ""
  /-- `put_rule` succeeds. -/
  putRuleOk : Bool := true
  /-- `put_targets` succeeds. -/
  putTargetsOk : Bool := true
  /-- `put_object` succeeds. -/
  putObjectOk : Bool := true
  /-- `generate_presigned_url` result (`none` = the call raises). -/
  presignUrl? : Option String := none
  /-- `sns.publish` succeeds. -/
  snsPublishOk : Bool := true
  /-- `delete_rule` succeeds (the deployed handler hands the notification
  client to `remove_retry_event_rule`, so the underlying call always
  raises there; either way the function swallows the failure). -/
  deleteRuleOk : Bool := true
  deriving DecidableEq

/-- Model of Python `random.randint(a, b)` (uniform over the inclusive
range `[a, b]`), driven by the seed `r`. -/
def randint (a b r : Nat) : Nat :=
  a + r % (b - a + 1)

/-- `json.dumps` of a plain string (escaping elided: no claim feeds it a
string containing characters that `json.dumps` escapes). -/
def json_dumps (s : String) : String :=
  "\x22" ++ s ++ "\x22"

/-- Result of one handler run: a structured status/body response or an
uncaught exception. -/
inductive HandlerResult where
  | response (statusCode : Nat) (body : String)
  | raised (e : PyError)
  deriving DecidableEq

/-- The `Input` payload of the retry target (lines 243-263): a full
replay of the original trigger event annotated with the new rule name as
`detail.retryRuleName` (the detail account/region are overwritten with
the top-level values, as in the source). -/
def replayEvent (rule_name : String) (event : Event) : Event :=
  { version := event.version
    eid := event.eid
    detailType := event.detailType
    esource := event.esource
    account := event.account
    time := event.time
    region := event.region
    resources := event.resources
    detail :=
      { schemaVersion := event.detail.schemaVersion
        accountId := event.account
        dregion := event.region
        dpartition := event.detail.dpartition
        did := event.detail.did
        detectorId := event.detail.detectorId
        retryRuleName := some rule_name } }

/-- `schedule_retry(event, context)` (lines 200-273): draw a random delay
in [1, 600] seconds, create a one-shot rule `RetryLambdaInvocation-<uuid>`
firing at `now + delay`, and target it with a full replay of the trigger
event annotated with the rule name as `retryRuleName`.  On success return
`"rescheduled"`; a `ClientError` (or any other exception) from
registration is logged and swallowed, so the function falls off the end
and returns `None` (`none` here).  (The `KeyError → ValueError` guard for
missing event fields is unreachable over the typed `Event`.) -/
def schedule_retry (w : World) (event : Event) (_context : Context) :
    Option String × List Call :=
  let delay_seconds := randint 1 600 w.rng
  let future_time := w.nowSec + delay_seconds
  let rule_name := "RetryLambdaInvocation-" ++ w.eventUuid
  if w.putRuleOk then
    if w.putTargetsOk then
      (some "rescheduled",
        [.putRule rule_name future_time, .putTargets rule_name (replayEvent rule_name event)])
    else
      (none, [.putRule rule_name future_time, .putTargets rule_name (replayEvent rule_name event)])
  else
    (none, [.putRule rule_name future_time])

/-- Model selection: `os.environ.get('BEDROCK_MODEL_ID', 'anthropic...')`
(line 160). -/
def modelIdOf (env : Env) : String :=
  env.bedrockModelId.getD "anthropic.claude-3-5-sonnet-20240620-v1:0"

/-- `invoke_bedrock_model` (lines 137-197): invoke the analysis
capability; on success extract `content[0]["text"]` with `""` as the
default for a missing text field (a missing `content` list defaults to
`[{}]`; an empty `content` list makes the `[0]` lookup raise, re-raised
by the generic handler).  A `ThrottlingException` is routed to
`schedule_retry` and its return value (possibly `None`) is returned; any
other client error is re-raised.  Returns the Python return value (or
the raised error) plus the calls made. -/
def invoke_bedrock_model (env : Env) (w : World) (event : Event) (context : Context) :
    Except PyError (Option String) × List Call :=
  let model_id := modelIdOf env
  match w.bedrock with
  | .success content? =>
    match content?.getD [{}] with
    | [] => (.error .indexError, [.invokeModel model_id])
    | b :: _ => (.ok (some (b.text?.getD "")), [.invokeModel model_id])
  | .clientError code =>
    if code = "ThrottlingException" then
      let sr := schedule_retry w event context
      (.ok sr.1, .invokeModel model_id :: sr.2)
    else
      (.error (.clientError code), [.invokeModel model_id])

/-- One drawing operation issued to the document library by
`generate_pdf`, with the arguments the source passes. -/
inductive PdfOp where
  | setAutoPageBreak (auto : Bool) (margin : Nat)
  | addPage
  | setFont (family style : String) (size : Nat)
  | cell (w h : Nat) (txt : String) (ln : Bool) (align : String) (link : String)
  | multiCell (w h : Nat) (txt : String)
  | lnBreak (h : Nat)
  | setTextColor (r g b : Nat)
  deriving DecidableEq

/-- The three headers rendered in the primary heading style
(`Arial B 12`). -/
def primaryHeaders : List String :=
  ["Analysis:", "Remediation Actions:", "Recommended Actions:"]

/-- The three headers rendered in the secondary heading style
(`Arial B 10`). -/
def secondaryHeaders : List String :=
  ["Entities Involved:", "Security Group Impact:", "Attempt Status:"]

/-- The per-line body of the insights loop in `generate_pdf`
(lines 345-359): a line whose stripped form is a recognized header is
emitted as a heading `cell` in the matching bold style; anything else is
emitted as a stripped `multi_cell` body paragraph in the normal style. -/
def renderInsightLine (line : String) : List PdfOp :=
  if pyStrip line ∈ primaryHeaders then
    [.setFont "Arial" "B" 12, .cell 0 10 (pyStrip line) true "" ""]
  else if pyStrip line ∈ secondaryHeaders then
    [.setFont "Arial" "B" 10, .cell 0 10 (pyStrip line) true "" ""]
  else
    [.setFont "Arial" "" 10, .multiCell 0 10 (pyStrip line)]

/-- Fixed conclusion paragraph of the report. -/
def summaryText : String :=
  "The above insights and recommendations provide detailed information on mitigating the"
    ++ " identified threat. Please ensure the recommended security actions are promptly applied to"
    ++ " minimize future risks."

/-- `generate_pdf(ai_insights, guardduty_finding)` (lines 276-382) as the
ordered sequence of drawing operations it issues; `now` is the
`datetime.utcnow().isoformat()` reading (float repr of the severity is
modelled by the rational repr). -/
def generate_pdf (ai_insights : String) (guardduty_finding : Finding) (now : String) :
    List PdfOp :=
  let region := guardduty_finding.fregion?.getD "us-east-1"
  let finding_id := guardduty_finding.fid?.getD "unknown"
  let guardduty_link :=
    "https://" ++ region ++ ".console.aws.amazon.com/guardduty/home?region=" ++ region
      ++ "#/findings?search=id%3D" ++ finding_id ++ "&macros=current"
  let detective_link :=
    "https://" ++ region ++ ".console.aws.amazon.com/detective/home?region=" ++ region
      ++ "#search?searchType=Finding&searchText=" ++ finding_id
  let finding_details :=
    "Finding Type: " ++ guardduty_finding.ftype?.getD "N/A" ++ "\n"
      ++ "Finding ID: " ++ guardduty_finding.fid?.getD "N/A" ++ "\n"
      ++ "Severity: "
      ++ (match guardduty_finding.severity? with
          | some q => toString q
          | none => "N/A") ++ "\n"
      ++ "Account ID: " ++ guardduty_finding.faccountId?.getD "N/A" ++ "\n"
      ++ "Region: " ++ guardduty_finding.fregion?.getD "N/A" ++ "\n"
  [PdfOp.setAutoPageBreak true 15,
   PdfOp.addPage,
   PdfOp.setFont "Arial" "B" 16,
   PdfOp.cell 200 10 "GuardDuty Finding Report" true "C" "",
   PdfOp.cell 200 10 (guardduty_finding.ftype?.getD "N/A") true "C" "",
   PdfOp.setFont "Arial" "" 12,
   PdfOp.cell 200 10 ("Generated on: " ++ now) true "C" "",
   PdfOp.lnBreak 10,
   PdfOp.setFont "Arial" "B" 14,
   PdfOp.cell 200 10 "GuardDuty Finding Details" true "" "",
   PdfOp.setFont "Arial" "" 12,
   PdfOp.multiCell 0 10 finding_details,
   PdfOp.lnBreak 10,
   PdfOp.setFont "Arial" "B" 12,
   PdfOp.cell 200 10 "Relevant Links" true "" "",
   PdfOp.setFont "Arial" "" 12,
   PdfOp.setTextColor 0 0 255,
   PdfOp.cell 200 10 "View Finding in GuardDuty Console" true "" guardduty_link,
   PdfOp.cell 200 10 "View Finding in Detective Console" true "" detective_link,
   PdfOp.setTextColor 0 0 0,
   PdfOp.lnBreak 10,
   PdfOp.setFont "Arial" "B" 14,
   PdfOp.cell 200 10 "AI Insights" true "" ""]
  ++ ((insightsSections ai_insights).flatMap fun sec =>
        ((sec.splitOn "\n").flatMap renderInsightLine) ++ [PdfOp.lnBreak 5])
  ++ [PdfOp.lnBreak 10,
      PdfOp.setFont "Arial" "B" 14,
      PdfOp.cell 200 10 "Conclusion and Recommended Actions" true "" "",
      PdfOp.setFont "Arial" "" 12,
      PdfOp.multiCell 0 10 summaryText]

/-- One line of the serialized document per drawing operation. -/
def pdfOpLine : PdfOp → String
  | .setAutoPageBreak auto margin =>
      "set_auto_page_break " ++ toString auto ++ " " ++ toString margin
  | .addPage => "add_page"
  | .setFont family style size =>
      "set_font " ++ family ++ " " ++ style ++ " " ++ toString size
  | .cell w h txt ln align link =>
      "cell " ++ toString w ++ " " ++ toString h ++ " " ++ txt ++ " "
        ++ toString ln ++ " " ++ align ++ " " ++ link
  | .multiCell w h txt =>
      "multi_cell " ++ toString w ++ " " ++ toString h ++ " " ++ txt
  | .lnBreak h => "ln " ++ toString h
  | .setTextColor r g b =>
      "set_text_color " ++ toString r ++ " " ++ toString g ++ " " ++ toString b

/-- Modelled from the spec: `pdf.output(dest="S")` — the byte emission of
the external document library, which is not part of `src/`, is modelled
as a deterministic serialization of the issued operation sequence (its
own embedded creation timestamp is part of the generation time that the
determinism invariant holds fixed). -/
def pdf_output (ops : List PdfOp) : String :=
  String.intercalate "\n" (ops.map pdfOpLine)

/-- `upload_pdf_to_s3` (lines 385-403): `put_object` then
`generate_presigned_url` with `ExpiresIn=3600`; any failure is logged and
re-raised. -/
def upload_pdf_to_s3 (w : World) (file_name : String) (bucket_name : String) :
    Except PyError String × List Call :=
  if w.putObjectOk then
    match w.presignUrl? with
    | some url =>
      (.ok url,
        [.putObject bucket_name file_name, .presignedUrl bucket_name file_name 3600])
    | none =>
      (.error (.clientError "PresignError"),
        [.putObject bucket_name file_name, .presignedUrl bucket_name file_name 3600])
  else
    (.error (.clientError "PutObjectError"), [.putObject bucket_name file_name])

/-- The URL normalization in `send_sns_notification` (line 410):
`pre_signed_url.strip().replace(" ", "%20")` — replacement of the
single-character pattern `" "` is exactly a character-wise expansion. -/
def encodeUrl (pre_signed_url : String) : String :=
  String.mk ((pyStrip pre_signed_url).data.flatMap fun c =>
    if c = ' ' then "%20".data else [c])

/-- The email rendering of the notification message. -/
def emailMessage (url : String) : String :=
  "New GuardDuty finding. Enriched PDF with AI remediation\x27s can be downloaded here: "
    ++ url

/-- The default rendering of the notification message. -/
def defaultMessage : String :=
  "New GuardDuty finding with enriched PDF. Click the link to download."

/-- `send_sns_notification` (lines 406-438): publish one message to the
topic with the default and email renderings (the `json.dumps` envelope of
the two renderings is modelled by carrying both in the call); any failure
is logged and re-raised. -/
def send_sns_notification (w : World) (pre_signed_url : String) (topic_arn : String) :
    Except PyError Unit × List Call :=
  let url := encodeUrl pre_signed_url
  let message := emailMessage url
  let calls :=
    [Call.snsPublish topic_arn defaultMessage message "GuardDuty Finding Enrichment Report"]
  if w.snsPublishOk then (.ok (), calls) else (.error (.clientError "PublishError"), calls)

/-- `remove_retry_event_rule` (lines 441-447): attempt `delete_rule` with
the given name; every failure is caught and only logged (in the deployed
handler the notification client is passed in, so the underlying call
always fails — the attempt is still made with the exact rule name and
nothing propagates). -/
def remove_retry_event_rule (_deleteRuleOk : Bool) (event_rule_name : String) : List Call :=
  [Call.deleteRule event_rule_name]

/-- The retry-cleanup step at the end of the handler (lines 512-516):
`event["detail"].get("retryRuleName")` guarded by Python truthiness, then
`remove_retry_event_rule` with exactly that name. -/
def cleanupCalls (event : Event) (deleteRuleOk : Bool) : List Call :=
  match event.detail.retryRuleName with
  | some n => if n ≠ "" then remove_retry_event_rule deleteRuleOk n else []
  | none => []

/-- `lambda_handler` (lines 450-521).  Configuration is validated first
(an unset/empty bucket or topic raises an uncaught `ValueError` before
any outbound call); then the guarded pipeline runs: fetch the finding,
gate on severity 4.0, enrich via the graph source, invoke the analysis
capability (throttling reroutes to `schedule_retry`), render, upload,
notify, and clean up the retry rule if the trigger carried a marker.
Every exception inside the guarded block maps to a 500 response whose
body interpolates the error. -/
def lambda_handler (env : Env) (w : World) (event : Event) (context : Context) :
    HandlerResult × List Call :=
  let sns_topic_arn := env.aiReportsTopicArn
  let s3_bucket_name := env.aiReportsBucketName
  if !truthy s3_bucket_name then
    (.raised (.valueError "Environment variable AI_REPORTS_BUCKET_NAME is not set"), [])
  else if !truthy sns_topic_arn then
    (.raised (.valueError "Environment variable AI_REPORTS_TOPIC_ARN is not set"), [])
  else
    let bucket := s3_bucket_name.getD ""
    let topic := sns_topic_arn.getD ""
    let finding_id := event.detail.did
    let detector_id := event.detail.detectorId
    let calls0 := [Call.getFindings detector_id finding_id]
    -- get_guardduty_finding: ["Findings"][0]
    match w.findings with
    | [] =>
      (.response 500 (json_dumps ("Error in processing: " ++ pyErrStr .indexError)), calls0)
    | finding :: _ =>
      -- finding["Severity"] < 4.0 (a missing key raises KeyError → 500)
      match finding.severity? with
      | none =>
        (.response 500 (json_dumps ("Error in processing: " ++ pyErrStr (.keyError "Severity"))),
          calls0)
      | some sev =>
        if sev < 4 then
          (.response 200
            (json_dumps
              ("Finding " ++ finding_id ++ " has severity of " ++ toString sev
                ++ " not processing")),
            calls0)
        else
          -- get_graph_arn
          let calls1 := calls0 ++ [Call.listGraphs]
          match w.graphList with
          | [] =>
            (.response 500
              (json_dumps
                ("Error in processing: "
                  ++ pyErrStr (.exception "No graphs found in Amazon Detective."))),
              calls1)
          | graph_arn :: _ =>
            -- get_all_detective_entities (the pure normalization
            -- convert_to_json_serializable is the identity on the typed model)
            let calls2 := calls1 ++ [Call.listMembers graph_arn]
            if w.listMembersErr then
              (.response 500
                (json_dumps
                  ("Error in processing: " ++ pyErrStr (.clientError "DetectiveError"))),
                calls2)
            else
              let ib := invoke_bedrock_model env w event context
              let calls3 := calls2 ++ ib.2
              match ib.1 with
              | .error e =>
                (.response 500 (json_dumps ("Error in processing: " ++ pyErrStr e)), calls3)
              | .ok ai? =>
                match ai? with
                | none =>
                  -- None != "rescheduled"; generate_pdf(None, ...) raises
                  -- AttributeError on None.strip()
                  (.response 500
                    (json_dumps ("Error in processing: " ++ pyErrStr .attributeError)),
                    calls3)
                | some ai_insights =>
                  if ai_insights = "rescheduled" then
                    (.response 200 (json_dumps "Event scheduled."), calls3)
                  else
                    let _pdf := generate_pdf ai_insights finding w.pdfNow
                    let file_name := finding_id ++ ".pdf"
                    let up := upload_pdf_to_s3 w file_name bucket
                    let calls4 := calls3 ++ up.2
                    match up.1 with
                    | .error e =>
                      (.response 500 (json_dumps ("Error in processing: " ++ pyErrStr e)),
                        calls4)
                    | .ok pre_signed_url =>
                      let sn := send_sns_notification w pre_signed_url topic
                      let calls5 := calls4 ++ sn.2
                      match sn.1 with
                      | .error e =>
                        (.response 500 (json_dumps ("Error in processing: " ++ pyErrStr e)),
                          calls5)
                      | .ok _ =>
                        let calls6 := calls5 ++ cleanupCalls event w.deleteRuleOk
                        (.response 200 (json_dumps ai_insights), calls6)

/-- Call classifiers used by the trace-counting theorems. -/
def isListMembersCall : Call → Bool
  | .listMembers _ => true
  | _ => false

def isInvokeModelCall : Call → Bool
  | .invokeModel _ => true
  | _ => false

def isPutRuleCall : Call → Bool
  | .putRule _ _ => true
  | _ => false

def isPutObjectCall : Call → Bool
  | .putObject _ _ => true
  | _ => false

def isPresignCall : Call → Bool
  | .presignedUrl _ _ _ => true
  | _ => false

def isSnsPublishCall : Call → Bool
  | .snsPublish _ _ _ _ => true
  | _ => false

def isDeleteRuleCall : Call → Bool
  | .deleteRule _ => true
  | _ => false

/-! Concrete fixtures for the witness theorems. -/

def env0 : Env :=
  { aiReportsTopicArn := some "arn:aws:sns:us-east-1:111122223333:ai-reports"
    aiReportsBucketName := some "ai-reports-bucket"
    bedrockModelId := none }

def detail0 : EventDetail :=
  { schemaVersion := "2.0"
    accountId := "111122223333"
    dregion := "us-east-1"
    dpartition := "aws"
    did := "F1"
    detectorId := "D1"
    retryRuleName := none }

def event0 : Event :=
  { version := "0"
    eid := "E1"
    detailType := "GuardDuty Finding"
    esource := "aws.guardduty"
    account := "111122223333"
    time := "2024-01-01T00:00:00Z"
    region := "us-east-1"
    resources := []
    detail := detail0 }

def context0 : Context := { functionName := "ai-generator" }

def finding0 : Finding :=
  { ftype? := some "UnauthorizedAccess:EC2/SSHBruteForce"
    fid? := some "F1"
    severity? := some 6
    faccountId? := some "A1"
    fregion? := some "us-east-1" }

def findingLow : Finding := { finding0 with severity? := some (39/10) }

def world0 : World :=
  { findings := [finding0]
    graphList := ["G1"]
    bedrock := .success (some [{ text? := some "Analysis:\nBreach detected." }])
    rng := 42
    eventUuid := "u1"
    nowSec := 1000
    pdfNow := "2024-01-01T00:00:10"
    presignUrl? := some "https://ai-reports-bucket.s3.amazonaws.com/F1.pdf?sig=a b" }

/-! Claim theorems. -/

/-- C1: for an incoming event whose fetched finding has severity < 4.0,
the handler makes no enrichment, analysis, scheduling, storage or
notification call (its trace is exactly the one finding fetch) and
returns status 200 with the human-readable skip explanation as body. -/
theorem severityGateSkip (env : Env) (w : World) (event : Event) (context : Context)
    (finding : Finding) (rest : List Finding) (sev : Rat)
    (hb : truthy env.aiReportsBucketName = true)
    (ht : truthy env.aiReportsTopicArn = true)
    (hf : w.findings = finding :: rest)
    (hsev : finding.severity? = some sev)
    (hlow : sev < 4) :
    lambda_handler env w event context =
      (.response 200
        (json_dumps
          ("Finding " ++ event.detail.did ++ " has severity of " ++ toString sev
            ++ " not processing")),
        [Call.getFindings event.detail.detectorId event.detail.did]) := by
  simp [lambda_handler, hb, ht, hf, hsev, hlow]

/-- Witness for C1 at a concrete severity-3.9 finding. -/
theorem severityGateSkip_witness :
    lambda_handler env0 { world0 with findings := [findingLow] } event0 context0 =
      (.response 200
        (json_dumps
          ("Finding " ++ event0.detail.did ++ " has severity of " ++ toString ((39 : Rat)/10)
            ++ " not processing")),
        [Call.getFindings event0.detail.detectorId event0.detail.did]) :=
  severityGateSkip env0 _ event0 context0 findingLow [] ((39 : Rat)/10)
    (by decide) (by decide) rfl rfl (by norm_num)

/-- C3: in the insights loop of `generate_pdf`, a line stripping to one
of the three primary headers renders as a heading cell in `Arial B 12`, a
line stripping to one of the three secondary headers renders as a heading
cell in `Arial B 10`, and every other line renders as a stripped
body `multi_cell` in normal style `Arial 10`; a recognized header never
emits a body paragraph and an unrecognized line never emits a heading
cell. -/
theorem headerLineClassification (line : String) :
    (pyStrip line ∈ primaryHeaders →
      renderInsightLine line =
        [.setFont "Arial" "B" 12, .cell 0 10 (pyStrip line) true "" ""]) ∧
    (pyStrip line ∈ secondaryHeaders →
      renderInsightLine line =
        [.setFont "Arial" "B" 10, .cell 0 10 (pyStrip line) true "" ""]) ∧
    (pyStrip line ∉ primaryHeaders → pyStrip line ∉ secondaryHeaders →
      renderInsightLine line =
        [.setFont "Arial" "" 10, .multiCell 0 10 (pyStrip line)]) ∧
    (∀ cw ch ct cln ca clk, PdfOp.cell cw ch ct cln ca clk ∈ renderInsightLine line →
      pyStrip line ∈ primaryHeaders ∨ pyStrip line ∈ secondaryHeaders) ∧
    (∀ mw mh mt, PdfOp.multiCell mw mh mt ∈ renderInsightLine line →
      ¬(pyStrip line ∈ primaryHeaders ∨ pyStrip line ∈ secondaryHeaders)) := by
  by_cases h1 : pyStrip line ∈ primaryHeaders
  · have h2 : pyStrip line ∉ secondaryHeaders := by
      intro hs
      have h1d : pyStrip line = "Analysis:" ∨ pyStrip line = "Remediation Actions:" ∨
          pyStrip line = "Recommended Actions:" := by simpa [primaryHeaders] using h1
      rcases h1d with h | h | h <;> rw [h] at hs <;> simp [secondaryHeaders] at hs
    refine ⟨fun _ => ?_, fun hh => absurd hh h2, fun hn _ => absurd h1 hn, ?_, ?_⟩
    · simp [renderInsightLine, h1]
    · exact fun _ _ _ _ _ _ _ => Or.inl h1
    · intro mw mh mt hmem
      simp [renderInsightLine, h1] at hmem
  · by_cases h2 : pyStrip line ∈ secondaryHeaders
    · refine ⟨fun hh => absurd hh h1, fun _ => ?_, fun _ hn => absurd h2 hn, ?_, ?_⟩
      · simp [renderInsightLine, h1, h2]
      · exact fun _ _ _ _ _ _ _ => Or.inr h2
      · intro mw mh mt hmem
        simp [renderInsightLine, h1, h2] at hmem
    · refine ⟨fun hh => absurd hh h1, fun hh => absurd hh h2, fun _ _ => ?_, ?_, ?_⟩
      · simp [renderInsightLine, h1, h2]
      · intro cw ch ct cln ca clk hmem
        simp [renderInsightLine, h1, h2] at hmem
      · exact fun _ _ _ _ => by simp [h1, h2]

/-- Witness for C3: a padded primary header, a secondary header, and an
ordinary line. -/
theorem headerLineClassification_witness :
    renderInsightLine " Analysis: " =
      [.setFont "Arial" "B" 12, .cell 0 10 (pyStrip " Analysis: ") true "" ""] ∧
    renderInsightLine "Entities Involved:" =
      [.setFont "Arial" "B" 10, .cell 0 10 (pyStrip "Entities Involved:") true "" ""] ∧
    renderInsightLine "Rotate keys." =
      [.setFont "Arial" "" 10, .multiCell 0 10 (pyStrip "Rotate keys.")] :=
  ⟨(headerLineClassification " Analysis: ").1 (by decide),
   (headerLineClassification "Entities Involved:").2.1 (by decide),
   (headerLineClassification "Rotate keys.").2.2.1 (by decide) (by decide)⟩

/-- C4 counterexample: with schedule registration failing
(`put_rule` raises a `ClientError`), `schedule_retry` returns `None`,
not the claimed `"rescheduled"` status. -/
theorem scheduleRetryFailureCex :
    (schedule_retry { world0 with putRuleOk := false } event0 context0).1 = none ∧
    (schedule_retry { world0 with putRuleOk := false } event0 context0).1 ≠
      some "rescheduled" := by
  constructor
  · rfl
  · intro h
    exact Option.noConfusion h

/-- C4 (amended): when registration of the retry schedule fails, the
scheduling call swallows the error — it returns normally instead of
raising — but it returns no status (`None`), not `"rescheduled"`, so the
throttled invocation hands `None` back to the orchestrator. -/
theorem scheduleRetryFailureSwallowed (env : Env) (w : World) (event : Event)
    (context : Context)
    (hfail : w.putRuleOk = false ∨ w.putTargetsOk = false)
    (hth : w.bedrock = .clientError "ThrottlingException") :
    (schedule_retry w event context).1 = none ∧
    (invoke_bedrock_model env w event context).1 = .ok none := by
  have h1 : (schedule_retry w event context).1 = none := by
    rcases hfail with h | h
    · simp [schedule_retry, h]
    · cases hpr : w.putRuleOk <;> simp [schedule_retry, h, hpr]
  refine ⟨h1, ?_⟩
  simp [invoke_bedrock_model, hth, h1]

/-- Witness for the amended C4. -/
theorem scheduleRetryFailureSwallowed_witness :
    (schedule_retry
        { world0 with bedrock := .clientError "ThrottlingException", putRuleOk := false }
        event0 context0).1 = none ∧
    (invoke_bedrock_model env0
        { world0 with bedrock := .clientError "ThrottlingException", putRuleOk := false }
        event0 context0).1 = .ok none :=
  scheduleRetryFailureSwallowed env0 _ event0 context0 (Or.inl rfl) rfl

/-- C6: document rendering is deterministic — identical analysis text,
identical finding and identical generation timestamp produce a
byte-identical serialized document. -/
theorem renderingDeterministic (a1 a2 : String) (f1 f2 : Finding) (t1 t2 : String)
    (ha : a1 = a2) (hf : f1 = f2) (htm : t1 = t2) :
    pdf_output (generate_pdf a1 f1 t1) = pdf_output (generate_pdf a2 f2 t2) := by
  subst ha
  subst hf
  subst htm
  rfl

/-- Witness for C6 at a concrete report. -/
theorem renderingDeterministic_witness :
    pdf_output (generate_pdf "Analysis:\nBreach detected." finding0 "2024-01-01T00:00:10") =
      pdf_output (generate_pdf "Analysis:\nBreach detected." finding0 "2024-01-01T00:00:10") :=
  renderingDeterministic _ _ _ _ _ _ rfl rfl rfl

/-- C7: a successful analysis response whose first content block has no
text field makes the invocation return the empty string normally (no
exception). -/
theorem missingTextNonFatal (env : Env) (w : World) (event : Event) (context : Context)
    (b : ContentBlock) (bs : List ContentBlock)
    (hb : w.bedrock = .success (some (b :: bs)))
    (htext : b.text? = none) :
    (invoke_bedrock_model env w event context).1 = .ok (some "") := by
  simp [invoke_bedrock_model, hb, htext]

/-- Witness for C7. -/
theorem missingTextNonFatal_witness :
    (invoke_bedrock_model env0 { world0 with bedrock := .success (some [{}]) }
        event0 context0).1 = .ok (some "") :=
  missingTextNonFatal env0 _ event0 context0 {} [] rfl rfl

/-- C10: an unset or empty bucket or topic configuration makes the
handler raise an uncaught `ValueError` with no outbound call made; it
does not produce the structured 500 response other fatal errors get. -/
theorem missingConfigRaises (env : Env) (w : World) (event : Event) (context : Context)
    (h : truthy env.aiReportsBucketName = false ∨ truthy env.aiReportsTopicArn = false) :
    lambda_handler env w event context =
      (.raised (.valueError
        (if truthy env.aiReportsBucketName = false then
          "Environment variable AI_REPORTS_BUCKET_NAME is not set"
        else
          "Environment variable AI_REPORTS_TOPIC_ARN is not set")), []) ∧
    ∀ sc body, (lambda_handler env w event context).1 ≠ .response sc body := by
  have hmain : lambda_handler env w event context =
      (.raised (.valueError
        (if truthy env.aiReportsBucketName = false then
          "Environment variable AI_REPORTS_BUCKET_NAME is not set"
        else
          "Environment variable AI_REPORTS_TOPIC_ARN is not set")), []) := by
    rcases h with h | h
    · simp [lambda_handler, h]
    · cases hbk : truthy env.aiReportsBucketName <;> simp [lambda_handler, h, hbk]
  refine ⟨hmain, fun sc body hcontra => ?_⟩
  rw [hmain] at hcontra
  exact HandlerResult.noConfusion hcontra

/-- Witness for C10: bucket name unset. -/
theorem missingConfigRaises_witness :
    lambda_handler { aiReportsTopicArn := some "t" } world0 event0 context0 =
      (.raised (.valueError "Environment variable AI_REPORTS_BUCKET_NAME is not set"), []) := by
  simpa using
    (missingConfigRaises { aiReportsTopicArn := some "t" } world0 event0 context0
      (Or.inl (by decide))).1

/-! Helper lemmas about trace contents, shared by the remaining claims. -/

theorem randint_1_600_bounds (r : Nat) :
    1 ≤ randint 1 600 r ∧ randint 1 600 r ≤ 600 := by
  unfold randint
  omega

theorem scheduleRetryCountP (w : World) (event : Event) (context : Context)
    (p : Call → Bool)
    (h1 : ∀ n t, p (Call.putRule n t) = false)
    (h2 : ∀ n e, p (Call.putTargets n e) = false) :
    ((schedule_retry w event context).2).countP p = 0 := by
  unfold schedule_retry
  cases w.putRuleOk <;> cases w.putTargetsOk <;>
    simp [List.countP_cons, h1, h2]

theorem countP_cleanup (event : Event) (okb : Bool) (p : Call → Bool)
    (hdel : ∀ n, p (Call.deleteRule n) = false) :
    (cleanupCalls event okb).countP p = 0 := by
  unfold cleanupCalls
  rcases event.detail.retryRuleName with _ | n
  · simp
  · by_cases hn : n = ""
    · simp [hn]
    · simp [hn, remove_retry_event_rule, List.countP_cons, hdel]

theorem invokeCallsShape (env : Env) (w : World) (event : Event) (context : Context) :
    ∃ extra, (invoke_bedrock_model env w event context).2 =
        .invokeModel (modelIdOf env) :: extra ∧
      extra.countP isListMembersCall = 0 ∧ extra.countP isInvokeModelCall = 0 := by
  unfold invoke_bedrock_model
  cases hbk : w.bedrock with
  | success content? =>
    cases hc : content?.getD [{}] with
    | nil => exact ⟨[], by simp [hc], by simp, by simp⟩
    | cons b bs => exact ⟨[], by simp [hc], by simp, by simp⟩
  | clientError code =>
    by_cases hcode : code = "ThrottlingException"
    · refine ⟨(schedule_retry w event context).2, by simp [hcode], ?_, ?_⟩
      · exact scheduleRetryCountP w event context _ (by intro n t; rfl) (by intro n e; rfl)
      · exact scheduleRetryCountP w event context _ (by intro n t; rfl) (by intro n e; rfl)
    · exact ⟨[], by simp [hcode], by simp, by simp⟩

/-- The trace of every severity-passing run starts with the finding
fetch, the graph lookup, the member enrichment, and then the analysis
calls; whatever follows makes no further enrichment or analysis call. -/
theorem handlerTraceShape (env : Env) (w : World) (event : Event) (context : Context)
    (finding : Finding) (rest : List Finding) (sev : Rat) (g : String) (gs : List String)
    (hb : truthy env.aiReportsBucketName = true)
    (ht : truthy env.aiReportsTopicArn = true)
    (hf : w.findings = finding :: rest)
    (hsev : finding.severity? = some sev)
    (hge : ¬ sev < 4)
    (hgraph : w.graphList = g :: gs)
    (hmem : w.listMembersErr = false) :
    ∃ tail, (lambda_handler env w event context).2 =
        [Call.getFindings event.detail.detectorId event.detail.did,
         Call.listGraphs, Call.listMembers g]
          ++ (invoke_bedrock_model env w event context).2 ++ tail ∧
      tail.countP isListMembersCall = 0 ∧ tail.countP isInvokeModelCall = 0 := by
  rcases hiv : (invoke_bedrock_model env w event context).1 with e | ai?
  · exact ⟨[], by simp [lambda_handler, hb, ht, hf, hsev, hge, hgraph, hmem, hiv],
      by simp, by simp⟩
  · rcases ai? with _ | t
    · exact ⟨[], by simp [lambda_handler, hb, ht, hf, hsev, hge, hgraph, hmem, hiv],
        by simp, by simp⟩
    · by_cases hres : t = "rescheduled"
      · exact ⟨[], by simp [lambda_handler, hb, ht, hf, hsev, hge, hgraph, hmem, hiv, hres],
          by simp, by simp⟩
      · cases hpo : w.putObjectOk with
        | false =>
          exact ⟨[Call.putObject (env.aiReportsBucketName.getD "") (event.detail.did ++ ".pdf")],
            by simp [lambda_handler, upload_pdf_to_s3, hb, ht, hf, hsev, hge, hgraph, hmem,
                     hiv, hres, hpo],
            by simp [isListMembersCall], by simp [isInvokeModelCall]⟩
        | true =>
          rcases hpu : w.presignUrl? with _ | url
          · exact ⟨[Call.putObject (env.aiReportsBucketName.getD "") (event.detail.did ++ ".pdf"),
                Call.presignedUrl (env.aiReportsBucketName.getD "")
                  (event.detail.did ++ ".pdf") 3600],
              by simp [lambda_handler, upload_pdf_to_s3, hb, ht, hf, hsev, hge, hgraph, hmem,
                       hiv, hres, hpo, hpu],
              by simp [isListMembersCall], by simp [isInvokeModelCall]⟩
          · cases hsp : w.snsPublishOk with
            | false =>
              exact ⟨[Call.putObject (env.aiReportsBucketName.getD "")
                    (event.detail.did ++ ".pdf"),
                  Call.presignedUrl (env.aiReportsBucketName.getD "")
                    (event.detail.did ++ ".pdf") 3600,
                  Call.snsPublish (env.aiReportsTopicArn.getD "") defaultMessage
                    (emailMessage (encodeUrl url)) "GuardDuty Finding Enrichment Report"],
                by simp [lambda_handler, upload_pdf_to_s3, send_sns_notification, hb, ht, hf,
                         hsev, hge, hgraph, hmem, hiv, hres, hpo, hpu, hsp],
                by simp [isListMembersCall], by simp [isInvokeModelCall]⟩
            | true =>
              refine ⟨[Call.putObject (env.aiReportsBucketName.getD "")
                    (event.detail.did ++ ".pdf"),
                  Call.presignedUrl (env.aiReportsBucketName.getD "")
                    (event.detail.did ++ ".pdf") 3600,
                  Call.snsPublish (env.aiReportsTopicArn.getD "") defaultMessage
                    (emailMessage (encodeUrl url)) "GuardDuty Finding Enrichment Report"]
                  ++ cleanupCalls event w.deleteRuleOk,
                by simp [lambda_handler, upload_pdf_to_s3, send_sns_notification, hb, ht, hf,
                         hsev, hge, hgraph, hmem, hiv, hres, hpo, hpu, hsp], ?_, ?_⟩
              · simp [List.countP_append, isListMembersCall,
                  countP_cleanup event w.deleteRuleOk isListMembersCall (by intro n; rfl)]
              · simp [List.countP_append, isInvokeModelCall,
                  countP_cleanup event w.deleteRuleOk isInvokeModelCall (by intro n; rfl)]

/-- C8: for a finding with severity ≥ 4.0 (inclusive bound), the run
invokes the graph enrichment and then the analysis capability, each
exactly once: the trace starts finding-fetch, graph-list, member-list,
model-invocation, and the whole trace holds exactly one member-list and
exactly one model-invocation call. -/
theorem continueEnrichThenAnalyze (env : Env) (w : World) (event : Event) (context : Context)
    (finding : Finding) (rest : List Finding) (sev : Rat) (g : String) (gs : List String)
    (hb : truthy env.aiReportsBucketName = true)
    (ht : truthy env.aiReportsTopicArn = true)
    (hf : w.findings = finding :: rest)
    (hsev : finding.severity? = some sev)
    (hge : 4 ≤ sev)
    (hgraph : w.graphList = g :: gs)
    (hmem : w.listMembersErr = false) :
    (lambda_handler env w event context).2.take 4 =
      [Call.getFindings event.detail.detectorId event.detail.did,
       Call.listGraphs, Call.listMembers g, Call.invokeModel (modelIdOf env)] ∧
    (lambda_handler env w event context).2.countP isListMembersCall = 1 ∧
    (lambda_handler env w event context).2.countP isInvokeModelCall = 1 := by
  obtain ⟨tail, htr, htl1, htl2⟩ :=
    handlerTraceShape env w event context finding rest sev g gs hb ht hf hsev
      (not_lt.mpr hge) hgraph hmem
  obtain ⟨extra, hex, he1, he2⟩ := invokeCallsShape env w event context
  rw [hex] at htr
  refine ⟨?_, ?_, ?_⟩
  · rw [htr]; rfl
  · rw [htr]
    simp [List.countP_append, List.countP_cons, isListMembersCall, he1, htl1]
  · rw [htr]
    simp [List.countP_append, List.countP_cons, isInvokeModelCall, he2, htl2]

/-- Witness for C8 at severity exactly 4.0. -/
theorem continueEnrichThenAnalyze_witness :
    (lambda_handler env0 { world0 with findings := [{ finding0 with severity? := some 4 }] }
        event0 context0).2.take 4 =
      [Call.getFindings event0.detail.detectorId event0.detail.did,
       Call.listGraphs, Call.listMembers "G1", Call.invokeModel (modelIdOf env0)] ∧
    (lambda_handler env0 { world0 with findings := [{ finding0 with severity? := some 4 }] }
        event0 context0).2.countP isListMembersCall = 1 ∧
    (lambda_handler env0 { world0 with findings := [{ finding0 with severity? := some 4 }] }
        event0 context0).2.countP isInvokeModelCall = 1 :=
  continueEnrichThenAnalyze env0 _ event0 context0 _ [] 4 "G1" []
    (by decide) (by decide) rfl rfl (by norm_num) rfl rfl

/-- C2: on a `ThrottlingException` from the analysis capability (with the
schedule registration itself succeeding), the run creates exactly one
one-shot retry rule, firing `delay` seconds in the future with
`delay ∈ [1, 600]`, and terminates with status 200 and the scheduling
body, having made no storage and no notification call. -/
theorem throttleReschedules (env : Env) (w : World) (event : Event) (context : Context)
    (finding : Finding) (rest : List Finding) (sev : Rat) (g : String) (gs : List String)
    (hb : truthy env.aiReportsBucketName = true)
    (ht : truthy env.aiReportsTopicArn = true)
    (hf : w.findings = finding :: rest)
    (hsev : finding.severity? = some sev)
    (hge : ¬ sev < 4)
    (hgraph : w.graphList = g :: gs)
    (hmem : w.listMembersErr = false)
    (hthr : w.bedrock = .clientError "ThrottlingException")
    (hpr : w.putRuleOk = true)
    (hpt : w.putTargetsOk = true) :
    lambda_handler env w event context =
      (.response 200 (json_dumps "Event scheduled."),
        [Call.getFindings event.detail.detectorId event.detail.did,
         Call.listGraphs, Call.listMembers g, Call.invokeModel (modelIdOf env),
         Call.putRule ("RetryLambdaInvocation-" ++ w.eventUuid)
           (w.nowSec + randint 1 600 w.rng),
         Call.putTargets ("RetryLambdaInvocation-" ++ w.eventUuid)
           (replayEvent ("RetryLambdaInvocation-" ++ w.eventUuid) event)]) ∧
    1 ≤ randint 1 600 w.rng ∧ randint 1 600 w.rng ≤ 600 ∧
    (lambda_handler env w event context).2.countP isPutRuleCall = 1 ∧
    (lambda_handler env w event context).2.countP isPutObjectCall = 0 ∧
    (lambda_handler env w event context).2.countP isPresignCall = 0 ∧
    (lambda_handler env w event context).2.countP isSnsPublishCall = 0 := by
  have e1 : lambda_handler env w event context =
      (.response 200 (json_dumps "Event scheduled."),
        [Call.getFindings event.detail.detectorId event.detail.did,
         Call.listGraphs, Call.listMembers g, Call.invokeModel (modelIdOf env),
         Call.putRule ("RetryLambdaInvocation-" ++ w.eventUuid)
           (w.nowSec + randint 1 600 w.rng),
         Call.putTargets ("RetryLambdaInvocation-" ++ w.eventUuid)
           (replayEvent ("RetryLambdaInvocation-" ++ w.eventUuid) event)]) := by
    simp [lambda_handler, invoke_bedrock_model, schedule_retry, hb, ht, hf, hsev, hge,
          hgraph, hmem, hthr, hpr, hpt]
  refine ⟨e1, (randint_1_600_bounds w.rng).1, (randint_1_600_bounds w.rng).2, ?_, ?_, ?_, ?_⟩ <;>
    rw [e1] <;>
    simp [List.countP_cons, isPutRuleCall, isPutObjectCall, isPresignCall, isSnsPublishCall]

/-- Witness for C2. -/
theorem throttleReschedules_witness :
    lambda_handler env0 { world0 with bedrock := .clientError "ThrottlingException" }
        event0 context0 =
      (.response 200 (json_dumps "Event scheduled."),
        [Call.getFindings event0.detail.detectorId event0.detail.did,
         Call.listGraphs, Call.listMembers "G1", Call.invokeModel (modelIdOf env0),
         Call.putRule ("RetryLambdaInvocation-" ++ "u1") (1000 + randint 1 600 42),
         Call.putTargets ("RetryLambdaInvocation-" ++ "u1")
           (replayEvent ("RetryLambdaInvocation-" ++ "u1") event0)]) ∧
    1 ≤ randint 1 600 42 ∧ randint 1 600 42 ≤ 600 := by
  have h := throttleReschedules env0
    { world0 with bedrock := .clientError "ThrottlingException" } event0 context0
    finding0 [] 6 "G1" [] (by decide) (by decide) rfl rfl (by norm_num) rfl rfl rfl rfl rfl
  exact ⟨h.1, h.2.1, h.2.2.1⟩

/-- Happy-path trace: severity passes, analysis succeeds with text `t`,
upload, presign and publish all succeed — the run writes
`<findingId>.pdf`, presigns it for 3600 seconds, publishes one
notification with the default and email renderings (the email one
carrying the encoded URL), runs the retry cleanup, and returns 200 with
the analysis text as body. -/
theorem publishHappyTrace (env : Env) (w : World) (event : Event) (context : Context)
    (finding : Finding) (rest : List Finding) (sev : Rat) (g : String) (gs : List String)
    (b : ContentBlock) (bs : List ContentBlock) (t url : String)
    (hb : truthy env.aiReportsBucketName = true)
    (ht : truthy env.aiReportsTopicArn = true)
    (hf : w.findings = finding :: rest)
    (hsev : finding.severity? = some sev)
    (hge : ¬ sev < 4)
    (hgraph : w.graphList = g :: gs)
    (hmem : w.listMembersErr = false)
    (hbed : w.bedrock = .success (some (b :: bs)))
    (htext : b.text? = some t)
    (hnr : t ≠ "rescheduled")
    (hup : w.putObjectOk = true)
    (hpre : w.presignUrl? = some url)
    (hsns : w.snsPublishOk = true) :
    lambda_handler env w event context =
      (.response 200 (json_dumps t),
        [Call.getFindings event.detail.detectorId event.detail.did,
         Call.listGraphs, Call.listMembers g, Call.invokeModel (modelIdOf env),
         Call.putObject (env.aiReportsBucketName.getD "") (event.detail.did ++ ".pdf"),
         Call.presignedUrl (env.aiReportsBucketName.getD "")
           (event.detail.did ++ ".pdf") 3600,
         Call.snsPublish (env.aiReportsTopicArn.getD "") defaultMessage
           (emailMessage (encodeUrl url)) "GuardDuty Finding Enrichment Report"]
        ++ cleanupCalls event w.deleteRuleOk) := by
  simp [lambda_handler, invoke_bedrock_model, upload_pdf_to_s3, send_sns_notification,
        hb, ht, hf, hsev, hge, hgraph, hmem, hbed, htext, hnr, hup, hpre, hsns]

/-- C5: a successful publishing run whose trigger carries a (truthy)
retry marker ends with exactly one schedule-deletion attempt carrying
that exact marker name, and the outcome of that deletion cannot change
the final 200 result (the handler is insensitive to the deletion
succeeding or failing). -/
theorem retryMarkerCleanup (env : Env) (w : World) (event : Event) (context : Context)
    (finding : Finding) (rest : List Finding) (sev : Rat) (g : String) (gs : List String)
    (b : ContentBlock) (bs : List ContentBlock) (t url name : String)
    (hb : truthy env.aiReportsBucketName = true)
    (ht : truthy env.aiReportsTopicArn = true)
    (hf : w.findings = finding :: rest)
    (hsev : finding.severity? = some sev)
    (hge : ¬ sev < 4)
    (hgraph : w.graphList = g :: gs)
    (hbed : w.bedrock = .success (some (b :: bs)))
    (hmem : w.listMembersErr = false)
    (htext : b.text? = some t)
    (hnr : t ≠ "rescheduled")
    (hup : w.putObjectOk = true)
    (hpre : w.presignUrl? = some url)
    (hsns : w.snsPublishOk = true)
    (hmarker : event.detail.retryRuleName = some name)
    (hname : name ≠ "") :
    lambda_handler env w event context =
      (.response 200 (json_dumps t),
        [Call.getFindings event.detail.detectorId event.detail.did,
         Call.listGraphs, Call.listMembers g, Call.invokeModel (modelIdOf env),
         Call.putObject (env.aiReportsBucketName.getD "") (event.detail.did ++ ".pdf"),
         Call.presignedUrl (env.aiReportsBucketName.getD "")
           (event.detail.did ++ ".pdf") 3600,
         Call.snsPublish (env.aiReportsTopicArn.getD "") defaultMessage
           (emailMessage (encodeUrl url)) "GuardDuty Finding Enrichment Report",
         Call.deleteRule name]) ∧
    lambda_handler env { w with deleteRuleOk := false } event context =
      lambda_handler env { w with deleteRuleOk := true } event context := by
  have hclean : ∀ okb : Bool, cleanupCalls event okb = [Call.deleteRule name] := by
    intro okb
    simp [cleanupCalls, hmarker, hname, remove_retry_event_rule]
  have e1 := publishHappyTrace env w event context finding rest sev g gs b bs t url
    hb ht hf hsev hge hgraph hmem hbed htext hnr hup hpre hsns
  have ef := publishHappyTrace env { w with deleteRuleOk := false } event context
    finding rest sev g gs b bs t url hb ht hf hsev hge hgraph hmem hbed htext hnr hup hpre hsns
  have et := publishHappyTrace env { w with deleteRuleOk := true } event context
    finding rest sev g gs b bs t url hb ht hf hsev hge hgraph hmem hbed htext hnr hup hpre hsns
  constructor
  · rw [e1, hclean]
    simp
  · rw [ef, et]
    simp [hclean]

/-- The trigger event with a retry marker, for the C5 witness. -/
def eventR : Event :=
  { event0 with detail := { detail0 with retryRuleName := some "RetryLambdaInvocation-u0" } }

/-- Witness for C5. -/
theorem retryMarkerCleanup_witness :
    lambda_handler env0 world0 eventR context0 =
      (.response 200 (json_dumps "Analysis:\nBreach detected."),
        [Call.getFindings eventR.detail.detectorId eventR.detail.did,
         Call.listGraphs, Call.listMembers "G1", Call.invokeModel (modelIdOf env0),
         Call.putObject (env0.aiReportsBucketName.getD "") (eventR.detail.did ++ ".pdf"),
         Call.presignedUrl (env0.aiReportsBucketName.getD "")
           (eventR.detail.did ++ ".pdf") 3600,
         Call.snsPublish (env0.aiReportsTopicArn.getD "") defaultMessage
           (emailMessage
             (encodeUrl "https://ai-reports-bucket.s3.amazonaws.com/F1.pdf?sig=a b"))
           "GuardDuty Finding Enrichment Report",
         Call.deleteRule "RetryLambdaInvocation-u0"]) ∧
    lambda_handler env0 { world0 with deleteRuleOk := false } eventR context0 =
      lambda_handler env0 { world0 with deleteRuleOk := true } eventR context0 :=
  retryMarkerCleanup env0 world0 eventR context0 finding0 [] 6 "G1" []
    { text? := some "Analysis:\nBreach detected." } [] "Analysis:\nBreach detected."
    "https://ai-reports-bucket.s3.amazonaws.com/F1.pdf?sig=a b" "RetryLambdaInvocation-u0"
    (by decide) (by decide) rfl rfl (by norm_num) rfl rfl rfl rfl (by decide) rfl rfl rfl
    rfl (by decide)

/-- C9 counterexample: the notification-stage URL normalization replaces
only the space character; an embedded tab — whitespace by the source's
own `strip` notion — survives unencoded into the published message, so
"any embedded whitespace is URL-encoded" fails as stated. -/
theorem publishWhitespaceCex :
    encodeUrl "https://b.s3.amazonaws.com/F1.pdf?X-Amz-Credential=a b\tc" =
      "https://b.s3.amazonaws.com/F1.pdf?X-Amz-Credential=a%20b\tc" ∧
    '\t' ∈ (encodeUrl "https://b.s3.amazonaws.com/F1.pdf?X-Amz-Credential=a b\tc").data ∧
    (send_sns_notification world0
        "https://b.s3.amazonaws.com/F1.pdf?X-Amz-Credential=a b\tc" "topicArn").2 =
      [Call.snsPublish "topicArn" defaultMessage
        (emailMessage "https://b.s3.amazonaws.com/F1.pdf?X-Amz-Credential=a%20b\tc")
        "GuardDuty Finding Enrichment Report"] :=
  ⟨by decide, by decide, by decide⟩

/-- C9 (amended): every successful publication writes the report bytes
under the deterministic key `<findingId>.pdf`, mints a pre-signed URL
valid for exactly 3600 seconds whose embedded space characters are
URL-encoded as `%20` (other whitespace is passed through unchanged), and
sends exactly one notification to the configured topic carrying the
default rendering and the email rendering that references that URL. -/
theorem publishContract (env : Env) (w : World) (event : Event) (context : Context)
    (finding : Finding) (rest : List Finding) (sev : Rat) (g : String) (gs : List String)
    (b : ContentBlock) (bs : List ContentBlock) (t url : String)
    (hb : truthy env.aiReportsBucketName = true)
    (ht : truthy env.aiReportsTopicArn = true)
    (hf : w.findings = finding :: rest)
    (hsev : finding.severity? = some sev)
    (hge : ¬ sev < 4)
    (hgraph : w.graphList = g :: gs)
    (hmem : w.listMembersErr = false)
    (hbed : w.bedrock = .success (some (b :: bs)))
    (htext : b.text? = some t)
    (hnr : t ≠ "rescheduled")
    (hup : w.putObjectOk = true)
    (hpre : w.presignUrl? = some url)
    (hsns : w.snsPublishOk = true) :
    lambda_handler env w event context =
      (.response 200 (json_dumps t),
        [Call.getFindings event.detail.detectorId event.detail.did,
         Call.listGraphs, Call.listMembers g, Call.invokeModel (modelIdOf env),
         Call.putObject (env.aiReportsBucketName.getD "") (event.detail.did ++ ".pdf"),
         Call.presignedUrl (env.aiReportsBucketName.getD "")
           (event.detail.did ++ ".pdf") 3600,
         Call.snsPublish (env.aiReportsTopicArn.getD "") defaultMessage
           (emailMessage (encodeUrl url)) "GuardDuty Finding Enrichment Report"]
        ++ cleanupCalls event w.deleteRuleOk) ∧
    (lambda_handler env w event context).2.countP isPutObjectCall = 1 ∧
    (lambda_handler env w event context).2.countP isPresignCall = 1 ∧
    (lambda_handler env w event context).2.countP isSnsPublishCall = 1 := by
  have e1 := publishHappyTrace env w event context finding rest sev g gs b bs t url
    hb ht hf hsev hge hgraph hmem hbed htext hnr hup hpre hsns
  refine ⟨e1, ?_, ?_, ?_⟩
  · rw [e1]
    simp [List.countP_append, List.countP_cons, isPutObjectCall,
      countP_cleanup event w.deleteRuleOk isPutObjectCall (by intro n; rfl)]
  · rw [e1]
    simp [List.countP_append, List.countP_cons, isPresignCall,
      countP_cleanup event w.deleteRuleOk isPresignCall (by intro n; rfl)]
  · rw [e1]
    simp [List.countP_append, List.countP_cons, isSnsPublishCall,
      countP_cleanup event w.deleteRuleOk isSnsPublishCall (by intro n; rfl)]

/-- Witness for the amended C9. -/
theorem publishContract_witness :
    lambda_handler env0 world0 event0 context0 =
      (.response 200 (json_dumps "Analysis:\nBreach detected."),
        [Call.getFindings event0.detail.detectorId event0.detail.did,
         Call.listGraphs, Call.listMembers "G1", Call.invokeModel (modelIdOf env0),
         Call.putObject (env0.aiReportsBucketName.getD "") (event0.detail.did ++ ".pdf"),
         Call.presignedUrl (env0.aiReportsBucketName.getD "")
           (event0.detail.did ++ ".pdf") 3600,
         Call.snsPublish (env0.aiReportsTopicArn.getD "") defaultMessage
           (emailMessage
             (encodeUrl "https://ai-reports-bucket.s3.amazonaws.com/F1.pdf?sig=a b"))
           "GuardDuty Finding Enrichment Report"]
        ++ cleanupCalls event0 world0.deleteRuleOk) ∧
    (lambda_handler env0 world0 event0 context0).2.countP isPutObjectCall = 1 ∧
    (lambda_handler env0 world0 event0 context0).2.countP isPresignCall = 1 ∧
    (lambda_handler env0 world0 event0 context0).2.countP isSnsPublishCall = 1 :=
  publishContract env0 world0 event0 context0 finding0 [] 6 "G1" []
    { text? := some "Analysis:\nBreach detected." } [] "Analysis:\nBreach detected."
    "https://ai-reports-bucket.s3.amazonaws.com/F1.pdf?sig=a b"
    (by decide) (by decide) rfl rfl (by norm_num) rfl rfl rfl rfl (by decide) rfl rfl rfl

end AiGen
